import Mathlib

/-!
Shallow embedding of the asynchronous task-handoff subsystem of the
FastAPI_WebApp repository: the Redis-streams queue service
(app/services/queue.py, class RedisQueueService) and the
caller-facing routes and background worker (app/routes/predict.py).

Redis is modelled explicitly: an append-only stream with a consumer-group
cursor and pending-entries list, and a key/value store with per-key TTL.
Each redis_client call inside a service method may raise a transport
exception; this nondeterminism is threaded as one Bool flag per call site
(true = that call raises).  A try/except block becomes: if the flagged
call raises, control jumps to the handler, which returns the default
value the Python handler returns.  json.dumps/json.loads are modelled by
a value constructor KVal.jdict and its partial inverse.
-/

set_option autoImplicit false

namespace FastAPIQueue

/-- The PredictionStatus enum from app/models.py. -/
inductive PredictionStatus where
  | PENDING
  | PROCESSING
  | COMPLETED
  | FAILED
deriving DecidableEq, Repr

/-- The .value string of each enum member, as in app/models.py. -/
def PredictionStatus.value : PredictionStatus → String
  | .PENDING => "pending"
  | .PROCESSING => "processing"
  | .COMPLETED => "completed"
  | .FAILED => "failed"

/-- The enum constructor call PredictionStatus(s): succeeds exactly on the
four member value strings, raises ValueError otherwise (modelled as none). -/
def statusOfValue : String → Option PredictionStatus
  | "pending" => some .PENDING
  | "processing" => some .PROCESSING
  | "completed" => some .COMPLETED
  | "failed" => some .FAILED
  | _ => none

/-- A value held in the Redis key/value store.  Status keys hold plain
strings; result keys hold json.dumps output of a Dict of strings, which we
keep structured (KVal.jdict d stands for the string json.dumps(d)). -/
inductive KVal where
  | str (s : String)
  | jdict (d : List (String × String))
deriving DecidableEq, Repr

/-- Python truthiness of the fetched Redis value, used by the
`if status_value:` and `if result_json:` checks in queue.py. -/
def KVal.truthy : KVal → Bool
  | .str s => s ≠ ""
  | .jdict _ => true

/-- json.loads applied to a stored value, expected to be a Dict of strings:
succeeds on json.dumps output, fails (raises, caught by the caller) on a
plain non-JSON string. -/
def KVal.loads : KVal → Option (List (String × String))
  | .str _ => none
  | .jdict d => some d

/-- One key/value store entry: value plus TTL (none = no expiry set). -/
structure KEntry where
  value : KVal
  ttl : Option Nat
deriving DecidableEq, Repr

/-- Point lookup in the association-list model of the key/value store. -/
def kvGet : List (String × KEntry) → String → Option KEntry
  | [], _ => none
  | (k, e) :: rest, key => if k = key then some e else kvGet rest key

/-- Overwrite-or-insert in the association-list model (Redis SET/SETEX). -/
def kvSet : List (String × KEntry) → String → KEntry → List (String × KEntry)
  | [], key, e => [(key, e)]
  | (k, e) :: rest, key, e2 =>
      if k = key then (key, e2) :: rest else (k, e) :: kvSet rest key e2

/-- One entry of the prediction_tasks stream: fields written by xadd in
enqueue_prediction, plus the stream id assigned at append time. -/
structure StreamEntry where
  id : Nat
  prediction_id : String
  input_data : String
  created_at : String
deriving DecidableEq, Repr

/-- The Redis state visible to RedisQueueService: the prediction_tasks
stream, the consumer-group cursor (index of the next undelivered entry)
and pending-entries list, and the key/value store. -/
structure RedisDB where
  stream : List StreamEntry
  nextId : Nat
  delivered : Nat
  pending : List Nat
  kv : List (String × KEntry)
deriving DecidableEq, Repr

/-- The empty Redis state. -/
def emptyDB : RedisDB := ⟨[], 0, 0, [], []⟩

/-- The status key for a task id: self.status_prefix + prediction_id. -/
def statusKey (pid : String) : String := "prediction_status:" ++ pid

/-- The result key for a task id: self.results_prefix + prediction_id. -/
def resultKey (pid : String) : String := "prediction_result:" ++ pid

/-- self.result_ttl (24 hours, in seconds). -/
def resultTTL : Nat := 86400

/-- Redis XADD on the prediction_tasks stream: appends the entry and
assigns it the next strictly increasing id. -/
def xadd (db : RedisDB) (pid input createdAt : String) : RedisDB :=
  { db with
    stream := db.stream ++ [⟨db.nextId, pid, input, createdAt⟩]
    nextId := db.nextId + 1 }

/-- RedisQueueService.set_prediction_status.  The single transport call is
setex on the status key; fail = that call raises, the except handler
returns False.  On success the status value string is written with the
standard TTL and True is returned. -/
def set_prediction_status (db : RedisDB) (pid : String) (status : PredictionStatus)
    (fail : Bool) : Bool × RedisDB :=
  if fail then (false, db)
  else (true, { db with kv := kvSet db.kv (statusKey pid) ⟨.str status.value, some resultTTL⟩ })

/-- RedisQueueService.enqueue_prediction.  Calls set_prediction_status
(whose return value is ignored and which swallows its own exceptions),
then xadd.  The only exception that can reach the enclosing except handler
is the xadd call raising (failAdd), in which case False is returned;
otherwise True. -/
def enqueue_prediction (db : RedisDB) (pid input createdAt : String)
    (failStatus failAdd : Bool) : Bool × RedisDB :=
  let s1 := set_prediction_status db pid .PENDING failStatus
  if failAdd then (false, s1.2)
  else (true, xadd s1.2 pid input createdAt)

/-- The task dictionary returned by get_next_task. -/
structure TaskMsg where
  message_id : Nat
  prediction_id : String
  input_data : String
  created_at : String
deriving DecidableEq, Repr

/-- RedisQueueService.get_next_task.  xreadgroup with id > delivers the
first undelivered stream entry, advances the group cursor and adds the
entry to the pending list; none on timeout (no undelivered entry) or when
the transport call raises (fail), in which case the handler returns None. -/
def get_next_task (db : RedisDB) (fail : Bool) : Option TaskMsg × RedisDB :=
  if fail then (none, db)
  else
    match db.stream[db.delivered]? with
    | none => (none, db)
    | some e =>
        (some ⟨e.id, e.prediction_id, e.input_data, e.created_at⟩,
         { db with delivered := db.delivered + 1, pending := e.id :: db.pending })

/-- RedisQueueService.acknowledge_task.  XACK removes the message id from
the pending-entries list (a no-op if absent; XACK does not raise on an
unknown id) and the method returns True, ignoring the count XACK returns;
if the transport call raises (fail), the handler returns False. -/
def acknowledge_task (db : RedisDB) (msgId : Nat) (fail : Bool) : Bool × RedisDB :=
  if fail then (false, db)
  else (true, { db with pending := db.pending.erase msgId })

/-- RedisQueueService.store_prediction_result.  setex of the json.dumps
of the result under the result key (failRes = that call raises, handler
returns False), then set_prediction_status COMPLETED, whose return value
is ignored and which swallows its own exceptions (failStatus); finally
True is returned. -/
def store_prediction_result (db : RedisDB) (pid : String)
    (result : List (String × String)) (failRes failStatus : Bool) : Bool × RedisDB :=
  if failRes then (false, db)
  else
    let db1 := { db with kv := kvSet db.kv (resultKey pid) ⟨.jdict result, some resultTTL⟩ }
    let s2 := set_prediction_status db1 pid .COMPLETED failStatus
    (true, s2.2)

/-- RedisQueueService.get_prediction_result.  GET on the result key; if
the value is truthy, json.loads it (a loads failure raises and the handler
returns None); None when the key is absent or the transport call raises. -/
def get_prediction_result (db : RedisDB) (pid : String) (fail : Bool) :
    Option (List (String × String)) × RedisDB :=
  (if fail then none
   else
     match kvGet db.kv (resultKey pid) with
     | none => none
     | some e => if e.value.truthy then e.value.loads else none,
   db)

/-- RedisQueueService.get_prediction_status.  GET on the status key; if
the value is truthy, parse it with the PredictionStatus constructor (a
ValueError raises and the handler returns None); None when the key is
absent or the transport call raises. -/
def get_prediction_status (db : RedisDB) (pid : String) (fail : Bool) :
    Option PredictionStatus × RedisDB :=
  (if fail then none
   else
     match kvGet db.kv (statusKey pid) with
     | none => none
     | some e =>
         if e.value.truthy then
           match e.value with
           | .str s => statusOfValue s
           | .jdict _ => none
         else none,
   db)

/-- One pass of the cleanup loop in cleanup_expired_data: for every key
matching the status pattern whose TTL is unset (Redis TTL = -1), set the
standard expiry and count it. -/
def cleanupPass : List (String × KEntry) → List (String × KEntry) × Nat
  | [] => ([], 0)
  | (k, e) :: rest =>
      let r := cleanupPass rest
      if ("prediction_status:".isPrefixOf k) && (e.ttl == none) then
        ((k, ⟨e.value, some resultTTL⟩) :: r.1, r.2 + 1)
      else ((k, e) :: r.1, r.2)

/-- RedisQueueService.cleanup_expired_data.  KEYS over the status pattern,
then the normalization loop; fail = the initial KEYS call raises, in which
case the handler returns 0 with no state change. -/
def cleanup_expired_data (db : RedisDB) (fail : Bool) : Nat × RedisDB :=
  if fail then (0, db)
  else
    let r := cleanupPass db.kv
    (r.2, { db with kv := r.1 })

/-- Outcome of the GET /predict/prediction-id route: either the 200 body
(result dictionary and status) or the HTTPException status code raised. -/
inductive RouteOutcome where
  | ok (output : List (String × String)) (status : PredictionStatus)
  | err (code : Nat)
deriving DecidableEq, Repr

/-- The get_prediction_result route handler in app/routes/predict.py:
400 on a short id, 404 when get_prediction_status returns None, 400 while
PENDING or PROCESSING, 500 on FAILED, 500 when the completed result is
missing, otherwise the 200 PredictionResult body. -/
def get_prediction_result_route (db : RedisDB) (pid : String)
    (failStatusGet failResultGet : Bool) : RouteOutcome :=
  if pid = "" ∨ pid.length < 8 then .err 400
  else
    match (get_prediction_status db pid failStatusGet).1 with
    | none => .err 404
    | some st =>
        if st = .PENDING ∨ st = .PROCESSING then .err 400
        else if st = .FAILED then .err 500
        else
          match (get_prediction_result db pid failResultGet).1 with
          | none => .err 500
          | some r => .ok r st

/-- One call made by the background worker onto the queue service,
recorded with the value the call returned. -/
inductive WorkerCall where
  | setStatusCall (pid : String) (status : PredictionStatus) (ok : Bool)
  | storeResultCall (pid : String) (ok : Bool)
  | ackCall (handle : Nat) (ok : Bool)
deriving DecidableEq, Repr

/-- process_async_prediction in app/routes/predict.py, the worker path a
background task runs for one submitted prediction.  workOk = whether
async_model_predict returns normally (false = it raises, sending control
to the except handler).  Every queue-service call the function makes is
recorded in order in the returned trace; the function body contains no
call to acknowledge_task, so no ackCall event is ever emitted. -/
def process_async_prediction (db : RedisDB) (pid : String) (workOk : Bool)
    (result : List (String × String)) (fSetProc fRes fStoreStatus fSetFail : Bool) :
    RedisDB × List WorkerCall :=
  let s1 := set_prediction_status db pid .PROCESSING fSetProc
  if workOk then
    let s2 := store_prediction_result s1.2 pid result fRes fStoreStatus
    if s2.1 then
      (s2.2, [.setStatusCall pid .PROCESSING s1.1, .storeResultCall pid s2.1])
    else
      let s3 := set_prediction_status s2.2 pid .FAILED fSetFail
      (s3.2, [.setStatusCall pid .PROCESSING s1.1, .storeResultCall pid s2.1,
              .setStatusCall pid .FAILED s3.1])
  else
    let s2 := set_prediction_status s1.2 pid .FAILED fSetFail
    (s2.2, [.setStatusCall pid .PROCESSING s1.1, .setStatusCall pid .FAILED s2.1])

/-- Whether a worker call is an acknowledge_task call. -/
def WorkerCall.isAck : WorkerCall → Bool
  | .ackCall _ _ => true
  | _ => false

/-- Number of acknowledge_task calls in a worker trace. -/
def ackCount (trace : List WorkerCall) : Nat :=
  (trace.filter WorkerCall.isAck).length

/-- The status a reader observes for a task id over a healthy transport. -/
def obsStatus (db : RedisDB) (pid : String) : Option PredictionStatus :=
  (get_prediction_status db pid false).1

/-- Rank of an observed status in the lifecycle order: unknown, then
PENDING, then PROCESSING, then the two terminal states. -/
def statusRank : Option PredictionStatus → Nat
  | none => 0
  | some .PENDING => 1
  | some .PROCESSING => 2
  | some .COMPLETED => 3
  | some .FAILED => 3

theorem statusRank_le_three (s : Option PredictionStatus) : statusRank s ≤ 3 := by
  rcases s with _ | st
  · simp [statusRank]
  · cases st <;> simp [statusRank]

theorem kvGet_kvSet_same (kv : List (String × KEntry)) (k : String) (e : KEntry) :
    kvGet (kvSet kv k e) k = some e := by
  induction kv with
  | nil => simp [kvGet, kvSet]
  | cons hd tl ih =>
      obtain ⟨k0, e0⟩ := hd
      by_cases h : k0 = k
      · simp [kvSet, kvGet, h]
      · simp [kvSet, kvGet, h, ih]

theorem kvGet_kvSet_ne (kv : List (String × KEntry)) (k k2 : String) (e : KEntry)
    (h : k ≠ k2) : kvGet (kvSet kv k e) k2 = kvGet kv k2 := by
  induction kv with
  | nil => simp [kvGet, kvSet, h]
  | cons hd tl ih =>
      obtain ⟨k0, e0⟩ := hd
      by_cases h0 : k0 = k
      · subst h0
        simp [kvSet, kvGet, h]
      · simp [kvSet, kvGet, h0, ih]

theorem statusKey_ne_resultKey (pid : String) : statusKey pid ≠ resultKey pid := by
  intro h
  have hd : (statusKey pid).data = (resultKey pid).data := by rw [h]
  simp only [statusKey, resultKey, String.data_append] at hd
  have hlen : ("prediction_status:".data).length = ("prediction_result:".data).length := by
    decide
  have := List.append_inj_left hd hlen
  exact absurd this (by decide)

theorem value_roundtrip (st : PredictionStatus) : statusOfValue st.value = some st := by
  cases st <;> rfl

theorem value_truthy (st : PredictionStatus) : (KVal.str st.value).truthy = true := by
  cases st <;> decide

/-- Reading back the status a successful set_prediction_status wrote. -/
theorem obsStatus_set_same (db : RedisDB) (pid : String) (st : PredictionStatus) :
    obsStatus (set_prediction_status db pid st false).2 pid = some st := by
  simp only [obsStatus, get_prediction_status, set_prediction_status, if_neg Bool.false_ne_true]
  simp only [kvGet_kvSet_same]
  simp [value_truthy st, value_roundtrip st]

/-- A failed set_prediction_status returns False and leaves the state
unchanged. -/
theorem set_prediction_status_fail (db : RedisDB) (pid : String) (st : PredictionStatus) :
    set_prediction_status db pid st true = (false, db) := rfl

/-- Writing the result key does not change the observed status. -/
theorem obsStatus_result_write (db : RedisDB) (pid : String) (e : KEntry) :
    obsStatus { db with kv := kvSet db.kv (resultKey pid) e } pid = obsStatus db pid := by
  have hne : resultKey pid ≠ statusKey pid := fun h => statusKey_ne_resultKey pid h.symm
  simp [obsStatus, get_prediction_status, kvGet_kvSet_ne _ _ _ _ hne]

/-- Appending to the stream does not change the observed status. -/
theorem obsStatus_xadd (db : RedisDB) (pid p i c : String) :
    obsStatus (xadd db p i c) pid = obsStatus db pid := by
  simp [obsStatus, get_prediction_status, xadd]

/-- Claim C1, as stated, is false: the worker-loop path of this repository
(process_async_prediction) never calls acknowledge_task, so a task that is
processed to a terminal outcome has its delivery handle acknowledged zero
times, not exactly once.  Concretely, a run in which the work succeeds and
store_prediction_result is called and succeeds (a terminal outcome in the
claim) contains no acknowledge_task call in its trace. -/
theorem C1_worker_ack_counterexample :
    ((process_async_prediction emptyDB "task-0001" true [("input", "x"), ("result", "42")]
        false false false false).2 =
      [WorkerCall.setStatusCall "task-0001" .PROCESSING true,
       WorkerCall.storeResultCall "task-0001" true]) ∧
    ackCount ((process_async_prediction emptyDB "task-0001" true [("input", "x"), ("result", "42")]
        false false false false).2) ≠ 1 := by
  constructor
  · rfl
  · decide

/-- Claim C1 amended: in every run of the worker path, whatever the work
outcome and whichever queue writes fail, the number of acknowledge_task
calls in the trace is zero; the background task processes the prediction
directly without claiming it from the stream, so no delivery handle exists
and none is ever acknowledged. -/
theorem C1_worker_never_acks (db : RedisDB) (pid : String) (workOk : Bool)
    (result : List (String × String)) (f1 f2 f3 f4 : Bool) :
    ackCount (process_async_prediction db pid workOk result f1 f2 f3 f4).2 = 0 := by
  cases workOk <;> cases f2 <;>
    simp [process_async_prediction, store_prediction_result, set_prediction_status,
      ackCount, WorkerCall.isAck]

/-- Claim C2, as stated, is false: enqueue_prediction ignores the return
value of set_prediction_status, which swallows its own transport
exceptions, so when the PENDING status write fails but the stream append
succeeds, submit still returns true.  Concretely: with the status setex
raising and xadd succeeding on the empty state, enqueue_prediction returns
true while no status record was written. -/
theorem C2_submit_counterexample :
    (enqueue_prediction emptyDB "task-0001" "x" "t0" true false).1 = true ∧
    obsStatus (enqueue_prediction emptyDB "task-0001" "x" "t0" true false).2 "task-0001" = none := by
  constructor
  · rfl
  · rfl

/-- Claim C2 amended: submit returns true if and only if the log append
succeeds; the outcome of the PENDING status write has no effect on the
return value, because its failure is caught inside set_prediction_status
and the returned False is discarded. -/
theorem C2_submit_true_iff_append_ok (db : RedisDB) (pid input createdAt : String)
    (failStatus failAdd : Bool) :
    (enqueue_prediction db pid input createdAt failStatus failAdd).1 = !failAdd := by
  cases failAdd <;> rfl

/-- Claim C3, as stated, is false: store_prediction_result ignores the
return value of set_prediction_status, so when the COMPLETED status write
fails it still returns true.  Concretely: with the result setex succeeding
and the status setex raising on the empty state, store_prediction_result
returns true while the status does not read COMPLETED. -/
theorem C3_store_counterexample :
    (store_prediction_result emptyDB "task-0001" [("result", "42")] false true).1 = true ∧
    obsStatus (store_prediction_result emptyDB "task-0001" [("result", "42")] false true).2
      "task-0001" ≠ some .COMPLETED := by
  constructor
  · rfl
  · decide

/-- Claim C3 amended: store_prediction_result returns false exactly when
the result write fails; on a successful result write it returns true even
if the COMPLETED status write fails (that failure is swallowed inside
set_prediction_status), and when neither write fails the result is
readable back and the status reads COMPLETED. -/
theorem C3_store_result_semantics (db : RedisDB) (pid : String)
    (result : List (String × String)) (failStatus : Bool) :
    (store_prediction_result db pid result false failStatus).1 = true ∧
    (store_prediction_result db pid result true failStatus).1 = false ∧
    obsStatus (store_prediction_result db pid result false false).2 pid = some .COMPLETED ∧
    (get_prediction_result (store_prediction_result db pid result false false).2 pid false).1 =
      some result := by
  refine ⟨rfl, rfl, ?_, ?_⟩
  · exact obsStatus_set_same _ pid .COMPLETED
  · have hne : statusKey pid ≠ resultKey pid := statusKey_ne_resultKey pid
    simp [store_prediction_result, set_prediction_status, get_prediction_result,
      kvGet_kvSet_ne _ _ _ _ hne, kvGet_kvSet_same, KVal.truthy, KVal.loads]

/-- Claim C9: every public queue operation catches transport exceptions
internally and returns its benign default.  For each operation, a raising
transport call inside it yields the default return value (false, none or
0) rather than a propagated exception; for enqueue_prediction this is the
xadd call (a raising status setex is caught one level down, inside
set_prediction_status, whose own conjunct is listed too), and the pure
reads and cleanup leave the state unchanged. -/
theorem C9_operations_total (db : RedisDB) (pid input createdAt : String)
    (result : List (String × String)) (msgId : Nat) (st : PredictionStatus)
    (failStatus failStatus2 : Bool) :
    (enqueue_prediction db pid input createdAt failStatus true).1 = false ∧
    get_next_task db true = (none, db) ∧
    acknowledge_task db msgId true = (false, db) ∧
    store_prediction_result db pid result true failStatus2 = (false, db) ∧
    get_prediction_result db pid true = (none, db) ∧
    set_prediction_status db pid st true = (false, db) ∧
    get_prediction_status db pid true = (none, db) ∧
    cleanup_expired_data db true = (0, db) := by
  refine ⟨?_, rfl, rfl, rfl, rfl, rfl, rfl, rfl⟩
  cases failStatus <;> rfl

/-- Claim C10: inside store_prediction_result the result write strictly
precedes the COMPLETED status write, so on any single invocation the
reachable final states are exactly: nothing written (result setex raised),
only the result written (status setex raised), or result then status
written; a state where store_prediction_result set COMPLETED without its
result write having happened is never produced. -/
theorem C10_store_write_order (db : RedisDB) (pid : String)
    (result : List (String × String)) (failRes failStatus : Bool) :
    (store_prediction_result db pid result failRes failStatus).2 = db ∨
    (store_prediction_result db pid result failRes failStatus).2 =
      { db with kv := kvSet db.kv (resultKey pid) ⟨.jdict result, some resultTTL⟩ } ∨
    (store_prediction_result db pid result failRes failStatus).2 =
      { db with kv := (kvSet (kvSet db.kv (resultKey pid) ⟨.jdict result, some resultTTL⟩)
          (statusKey pid) ⟨.str PredictionStatus.COMPLETED.value, some resultTTL⟩) } := by
  cases failRes with
  | true => exact Or.inl rfl
  | false =>
      cases failStatus with
      | true => exact Or.inr (Or.inl rfl)
      | false => exact Or.inr (Or.inr rfl)

/-- Claim C6: acknowledge_task is idempotent.  Over a healthy transport,
acking a handle that is not in the pending-entries list (unknown, or
already acked) returns true and changes nothing, and in particular a
second ack of the same handle (the pending list holds each delivered
entry at most once) is a no-op returning true. -/
theorem C6_ack_idempotent (db : RedisDB) (msgId : Nat) :
    (msgId ∉ db.pending → acknowledge_task db msgId false = (true, db)) ∧
    (db.pending.Nodup →
      acknowledge_task (acknowledge_task db msgId false).2 msgId false =
        (true, (acknowledge_task db msgId false).2)) := by
  constructor
  · intro h
    simp [acknowledge_task, List.erase_of_not_mem h]
  · intro h
    have h2 : msgId ∉ db.pending.erase msgId := h.not_mem_erase
    simp [acknowledge_task, List.erase_of_not_mem h2]

/-- Witness for C6: on a state whose pending list is the single handle 5,
acking the unknown handle 7 is the identity, and a second ack of 5 after
the first is a no-op returning true. -/
theorem C6_ack_idempotent_witness :
    acknowledge_task ⟨[], 0, 0, [5], []⟩ 7 false = (true, ⟨[], 0, 0, [5], []⟩) ∧
    acknowledge_task (acknowledge_task ⟨[], 0, 0, [5], []⟩ 5 false).2 5 false =
      (true, (acknowledge_task ⟨[], 0, 0, [5], []⟩ 5 false).2) := by
  constructor
  · exact (C6_ack_idempotent ⟨[], 0, 0, [5], []⟩ 7).1 (by decide)
  · exact (C6_ack_idempotent ⟨[], 0, 0, [5], []⟩ 5).2 (by decide)

/-- Claim C8: when no status record exists for a task id, the status read
returns none, and none is distinct from every real status value. -/
theorem C8_get_status_unknown (db : RedisDB) (pid : String)
    (h : kvGet db.kv (statusKey pid) = none) :
    (get_prediction_status db pid false).1 = none ∧
    ∀ st : PredictionStatus, (get_prediction_status db pid false).1 ≠ some st := by
  have h1 : (get_prediction_status db pid false).1 = none := by
    simp [get_prediction_status, h]
  exact ⟨h1, fun st => by simp [h1]⟩

/-- Witness for C8: reading the status of a never-submitted id on the
empty state. -/
theorem C8_get_status_unknown_witness :
    (get_prediction_status emptyDB "never-seen" false).1 = none ∧
    ∀ st : PredictionStatus, (get_prediction_status emptyDB "never-seen" false).1 ≠ some st :=
  C8_get_status_unknown emptyDB "never-seen" rfl

/-- Claim C5: at the result-retrieval route (for a well-formed id over a
healthy status read), the three caller-facing situations map to three
pairwise distinct response codes: unknown or expired id gives 404, a
PENDING or PROCESSING task gives 400, and a FAILED task gives 500. -/
theorem C5_result_route_outcomes (db : RedisDB) (pid : String) (failResultGet : Bool)
    (hlen : 8 ≤ pid.length) :
    (obsStatus db pid = none →
      get_prediction_result_route db pid false failResultGet = .err 404) ∧
    (obsStatus db pid = some .PENDING →
      get_prediction_result_route db pid false failResultGet = .err 400) ∧
    (obsStatus db pid = some .PROCESSING →
      get_prediction_result_route db pid false failResultGet = .err 400) ∧
    (obsStatus db pid = some .FAILED →
      get_prediction_result_route db pid false failResultGet = .err 500) ∧
    (RouteOutcome.err 404 ≠ RouteOutcome.err 400 ∧
     RouteOutcome.err 400 ≠ RouteOutcome.err 500 ∧
     RouteOutcome.err 404 ≠ RouteOutcome.err 500) := by
  have hid : ¬(pid = "" ∨ pid.length < 8) := by
    rintro (h1 | h2)
    · subst h1; exact absurd hlen (by decide)
    · omega
  refine ⟨?_, ?_, ?_, ?_, by decide⟩ <;> intro h <;> unfold obsStatus at h <;>
    simp [get_prediction_result_route, hid, h]

/-- Witness for C5: on the empty state, a well-formed but unknown id is
answered with 404 at the route boundary. -/
theorem C5_result_route_outcomes_witness :
    get_prediction_result_route emptyDB "task-0001" false false = .err 404 :=
  (C5_result_route_outcomes emptyDB "task-0001" false (by decide)).1 rfl

theorem statusRank_none : statusRank none = 0 := rfl

theorem statusRank_pending : statusRank (some .PENDING) = 1 := rfl

theorem statusRank_processing : statusRank (some .PROCESSING) = 2 := rfl

theorem statusRank_completed : statusRank (some .COMPLETED) = 3 := rfl

theorem statusRank_failed : statusRank (some .FAILED) = 3 := rfl

/-- Reading back a status write, stated on an explicit state constructor
so it rewrites nested write chains. -/
theorem obsStatus_mk_status_write (s : List StreamEntry) (n d : Nat) (p : List Nat)
    (K : List (String × KEntry)) (t : String) (st : PredictionStatus) :
    obsStatus ⟨s, n, d, p, kvSet K (statusKey t) ⟨.str st.value, some resultTTL⟩⟩ t =
      some st := by
  simp [obsStatus, get_prediction_status, kvGet_kvSet_same, value_truthy st, value_roundtrip st]

/-- A result-key write does not change the observed status, stated on an
explicit state constructor so it rewrites nested write chains. -/
theorem obsStatus_mk_result_write (s : List StreamEntry) (n d : Nat) (p : List Nat)
    (K : List (String × KEntry)) (t : String) (e : KEntry) :
    obsStatus ⟨s, n, d, p, kvSet K (resultKey t) e⟩ t = obsStatus ⟨s, n, d, p, K⟩ t := by
  have hne : resultKey t ≠ statusKey t := fun h => statusKey_ne_resultKey t h.symm
  simp [obsStatus, get_prediction_status, kvGet_kvSet_ne _ _ _ _ hne]

/-- After enqueue_prediction on a fresh task id, the observed status is
either still unknown (the PENDING write failed) or PENDING. -/
theorem obsStatus_enqueue (db : RedisDB) (t p ts : String) (fS fA : Bool)
    (hfresh : obsStatus db t = none) :
    obsStatus (enqueue_prediction db t p ts fS fA).2 t = none ∨
    obsStatus (enqueue_prediction db t p ts fS fA).2 t = some .PENDING := by
  cases fS <;> cases fA <;>
    simp [enqueue_prediction, set_prediction_status, obsStatus_mk_status_write,
      obsStatus_xadd, hfresh]

/-- From the moment the worker sets PROCESSING, the rank of the observed
status never decreases through the terminal step of
process_async_prediction, whatever succeeds or fails. -/
theorem process_rank_mono (db : RedisDB) (t : String) (r : List (String × String))
    (workOk g1 g2 g3 g4 : Bool) :
    statusRank (obsStatus (set_prediction_status db t .PROCESSING g1).2 t) ≤
      statusRank (obsStatus (process_async_prediction db t workOk r g1 g2 g3 g4).1 t) := by
  cases g1 <;> cases workOk <;> cases g2 <;> cases g3 <;> cases g4 <;>
    simp [process_async_prediction, store_prediction_result, set_prediction_status,
      obsStatus_mk_status_write, obsStatus_mk_result_write, statusRank_none,
      statusRank_pending, statusRank_processing, statusRank_completed, statusRank_failed,
      statusRank_le_three]

/-- Claim C4, as stated, is false: set_prediction_status is an
unconditional overwrite and enqueue_prediction rewrites the status to
PENDING, so a sequence of subsystem operations can move a task out of a
terminal state.  Concretely: submit, then store_result (status reads
COMPLETED, a terminal state), then submit again under the same id — the
status regresses to PENDING. -/
theorem C4_monotonicity_counterexample :
    obsStatus (store_prediction_result
      (enqueue_prediction emptyDB "task-0001" "p" "t0" false false).2
      "task-0001" [("result", "42")] false false).2 "task-0001" = some .COMPLETED ∧
    obsStatus (enqueue_prediction
      (store_prediction_result
        (enqueue_prediction emptyDB "task-0001" "p" "t0" false false).2
        "task-0001" [("result", "42")] false false).2
      "task-0001" "q" "t1" false false).2 "task-0001" = some .PENDING := by
  constructor
  · rfl
  · rfl

/-- Claim C4 amended: monotonicity holds along the code's own
single-submission lifecycle but not for arbitrary operation sequences.
For a fresh task id, the rank of the observable status (unknown 0,
PENDING 1, PROCESSING 2, COMPLETED and FAILED 3) never decreases across
submit, the worker's PROCESSING write, and the worker's terminal step,
whichever of the writes fail; a resubmission or a direct backward
set_prediction_status, however, regresses even a terminal status, since
both overwrite unconditionally. -/
theorem C4_lifecycle_monotone (db : RedisDB) (t p ts : String)
    (r : List (String × String)) (fS fA workOk g1 g2 g3 g4 : Bool)
    (hfresh : obsStatus db t = none) :
    statusRank (obsStatus db t) ≤
      statusRank (obsStatus (enqueue_prediction db t p ts fS fA).2 t) ∧
    statusRank (obsStatus (enqueue_prediction db t p ts fS fA).2 t) ≤
      statusRank (obsStatus
        (set_prediction_status (enqueue_prediction db t p ts fS fA).2 t .PROCESSING g1).2 t) ∧
    statusRank (obsStatus
        (set_prediction_status (enqueue_prediction db t p ts fS fA).2 t .PROCESSING g1).2 t) ≤
      statusRank (obsStatus
        (process_async_prediction (enqueue_prediction db t p ts fS fA).2 t workOk r
          g1 g2 g3 g4).1 t) := by
  refine ⟨?_, ?_, process_rank_mono _ t r workOk g1 g2 g3 g4⟩
  · rw [hfresh, statusRank_none]
    exact Nat.zero_le _
  · cases g1 with
    | true => exact Nat.le_refl _
    | false =>
        rw [obsStatus_set_same _ t .PROCESSING, statusRank_processing]
        rcases obsStatus_enqueue db t p ts fS fA hfresh with h | h <;> rw [h] <;> simp
          [statusRank_none, statusRank_pending]

/-- Witness for the amended C4 on a concrete fresh run: the rank after
submit is at least the rank before it. -/
theorem C4_lifecycle_monotone_witness :
    statusRank (obsStatus emptyDB "task-0001") ≤
      statusRank (obsStatus
        (enqueue_prediction emptyDB "task-0001" "p" "t0" false false).2 "task-0001") :=
  (C4_lifecycle_monotone emptyDB "task-0001" "p" "t0" [("result", "42")]
    false false true false false false false rfl).1

/-- Claim C7: over a healthy transport, after submit, a consumer claiming
the submitted entry via get_next_task (the group cursor being at the end
of the prior log, so the new entry is the one delivered), a successful
store_prediction_result, and acknowledge_task of the delivered handle,
the status reads COMPLETED and the result read returns the stored
result. -/
theorem C7_submit_claim_store_ack (db : RedisDB) (t p ts : String)
    (r : List (String × String)) (hdeliv : db.delivered = db.stream.length) :
    (get_next_task (enqueue_prediction db t p ts false false).2 false).1 =
      some ⟨db.nextId, t, p, ts⟩ ∧
    obsStatus
      (acknowledge_task
        (store_prediction_result
          (get_next_task (enqueue_prediction db t p ts false false).2 false).2
          t r false false).2
        db.nextId false).2 t = some .COMPLETED ∧
    (get_prediction_result
      (acknowledge_task
        (store_prediction_result
          (get_next_task (enqueue_prediction db t p ts false false).2 false).2
          t r false false).2
        db.nextId false).2 t false).1 = some r := by
  have hget : (db.stream ++ [(⟨db.nextId, t, p, ts⟩ : StreamEntry)])[db.delivered]? =
      some ⟨db.nextId, t, p, ts⟩ := by
    rw [hdeliv]
    exact List.getElem?_concat_length _ _
  have hne : statusKey t ≠ resultKey t := statusKey_ne_resultKey t
  have hval : ¬PredictionStatus.COMPLETED.value = "" := by decide
  refine ⟨?_, ?_, ?_⟩ <;>
    simp [enqueue_prediction, set_prediction_status, xadd, get_next_task, hget,
      store_prediction_result, acknowledge_task, obsStatus, get_prediction_status,
      get_prediction_result, kvGet_kvSet_same, kvGet_kvSet_ne _ _ _ _ hne,
      KVal.truthy, KVal.loads, value_truthy, value_roundtrip, hval]

/-- Witness for C7 on the empty state with a concrete task and result. -/
theorem C7_submit_claim_store_ack_witness :
    (get_next_task (enqueue_prediction emptyDB "task-0001" "hello" "t0" false false).2 false).1 =
      some ⟨0, "task-0001", "hello", "t0"⟩ ∧
    obsStatus
      (acknowledge_task
        (store_prediction_result
          (get_next_task (enqueue_prediction emptyDB "task-0001" "hello" "t0" false false).2
            false).2
          "task-0001" [("input", "hello"), ("result", "42")] false false).2
        0 false).2 "task-0001" = some .COMPLETED ∧
    (get_prediction_result
      (acknowledge_task
        (store_prediction_result
          (get_next_task (enqueue_prediction emptyDB "task-0001" "hello" "t0" false false).2
            false).2
          "task-0001" [("input", "hello"), ("result", "42")] false false).2
        0 false).2 "task-0001" false).1 = some [("input", "hello"), ("result", "42")] :=
  C7_submit_claim_store_ack emptyDB "task-0001" "hello" "t0"
    [("input", "hello"), ("result", "42")] rfl
